import Mathlib

/-
Verification of the Meeting Maestro security core: a shallow embedding of
the encryption, access-control, data-retention and GDPR user-data services
(src/lib/encryption.ts, access-control.ts, data-retention.ts,
user-data-management.ts), with theorems settling the specification claims
about them.

Bytes are Lean Nat values (0..255), byte sequences are List Nat, and the
stateful collaborators (Node's crypto random source, the audit sink, the
persistence layer) are modelled by explicit state passing and effect
traces.  Fallible operations return Except.
-/

/-! ## Byte and hex utilities (models of Node Buffer semantics) -/

/-- Truncation to a 32-bit word, written explicitly as a remainder. -/
def w32 (n : Nat) : Nat := n % 4294967296

/-- Big-endian byte expansion of a value into a fixed number of bytes. -/
def toBytesBE : Nat → Nat → List Nat
  | 0, _ => []
  | n + 1, v => toBytesBE n (v / 256) ++ [v % 256]

/-- Hex digit character for a nibble, lowercase as Node Buffer.toString produces. -/
def hexChar (n : Nat) : Char :=
  if n < 10 then Char.ofNat (48 + n) else Char.ofNat (87 + n)

/-- Value of a hex digit character; accepts both cases, as Node Buffer.from does. -/
def hexVal (c : Char) : Option Nat :=
  if 48 ≤ c.toNat ∧ c.toNat ≤ 57 then some (c.toNat - 48)
  else if 97 ≤ c.toNat ∧ c.toNat ≤ 102 then some (c.toNat - 87)
  else if 65 ≤ c.toNat ∧ c.toNat ≤ 70 then some (c.toNat - 55)
  else none

/-- Model of Buffer.toString with hex encoding: two lowercase digits per byte. -/
def hexEncode (bs : List Nat) : String :=
  String.mk (bs.flatMap fun b => [hexChar (b / 16), hexChar (b % 16)])

/-- Model of Buffer.from with hex decoding: consumes complete valid digit
pairs from the front and stops at the first invalid pair or lone digit. -/
def hexDecodeChars : List Char → List Nat
  | c1 :: c2 :: rest =>
      match hexVal c1, hexVal c2 with
      | some hi, some lo => (16 * hi + lo) :: hexDecodeChars rest
      | _, _ => []
  | _ => []

/-- Hex decoding of a string, Node Buffer.from(s, hex) semantics. -/
def hexDecode (s : String) : List Nat := hexDecodeChars s.data

/-- Base64 alphabet character for a 6-bit value. -/
def base64Char (n : Nat) : Char :=
  if n < 26 then Char.ofNat (65 + n)
  else if n < 52 then Char.ofNat (97 + (n - 26))
  else if n < 62 then Char.ofNat (48 + (n - 52))
  else if n = 62 then Char.ofNat 43
  else Char.ofNat 47

/-- Model of Buffer.toString with base64 encoding, including padding. -/
def base64EncodeChars : List Nat → List Char
  | b0 :: b1 :: b2 :: rest =>
      let v := b0 * 65536 + b1 * 256 + b2
      base64Char (v / 262144) :: base64Char (v / 4096 % 64) ::
        base64Char (v / 64 % 64) :: base64Char (v % 64) :: base64EncodeChars rest
  | [b0, b1] =>
      let v := b0 * 65536 + b1 * 256
      [base64Char (v / 262144), base64Char (v / 4096 % 64),
        base64Char (v / 64 % 64), Char.ofNat 61]
  | [b0] =>
      let v := b0 * 65536
      [base64Char (v / 262144), base64Char (v / 4096 % 64), Char.ofNat 61, Char.ofNat 61]
  | [] => []

/-- Base64 encoding of a byte sequence. -/
def base64Encode (bs : List Nat) : String := String.mk (base64EncodeChars bs)

/-- Value of a base64 alphabet character. -/
def base64Val (c : Char) : Option Nat :=
  if 65 ≤ c.toNat ∧ c.toNat ≤ 90 then some (c.toNat - 65)
  else if 97 ≤ c.toNat ∧ c.toNat ≤ 122 then some (c.toNat - 97 + 26)
  else if 48 ≤ c.toNat ∧ c.toNat ≤ 57 then some (c.toNat - 48 + 52)
  else if c.toNat = 43 then some 62
  else if c.toNat = 47 then some 63
  else none

/-- Model of Buffer.from with base64 decoding: consumes 4-character groups,
honouring trailing padding, and stops at invalid input. -/
def base64DecodeChars : List Char → List Nat
  | c1 :: c2 :: c3 :: c4 :: rest =>
      match base64Val c1, base64Val c2 with
      | some v1, some v2 =>
          if c3.toNat = 61 then [(v1 * 4 + v2 / 16) % 256]
          else
            match base64Val c3 with
            | some v3 =>
                if c4.toNat = 61 then
                  [(v1 * 4 + v2 / 16) % 256, (v2 * 16 + v3 / 4) % 256]
                else
                  match base64Val c4 with
                  | some v4 =>
                      (v1 * 4 + v2 / 16) % 256 :: (v2 * 16 + v3 / 4) % 256 ::
                        (v3 * 64 + v4) % 256 :: base64DecodeChars rest
                  | none => []
            | none => []
      | _, _ => []
  | _ => []

/-- Base64 decoding of a string. -/
def base64Decode (s : String) : List Nat := base64DecodeChars s.data

/-- UTF-8 byte sequence of a string, as Buffer.from(s, utf8) produces. -/
def utf8Bytes (s : String) : List Nat := s.toUTF8.toList.map UInt8.toNat

/-! ## SHA-256 (the digest used by crypto.createHash and, in this model,
as the keystream and tag primitive standing in for the Node cipher) -/

/-- Right rotation of a 32-bit word. -/
def rotr32 (x n : Nat) : Nat :=
  w32 (Nat.lor (Nat.shiftRight x n) (Nat.shiftLeft x (32 - n)))

/-- SHA-256 choice function. -/
def sha2Ch (x y z : Nat) : Nat :=
  Nat.xor (Nat.land x y) (Nat.land (Nat.xor x 4294967295) z)

/-- SHA-256 majority function. -/
def sha2Maj (x y z : Nat) : Nat :=
  Nat.xor (Nat.xor (Nat.land x y) (Nat.land x z)) (Nat.land y z)

/-- SHA-256 big sigma 0. -/
def sha2BSig0 (x : Nat) : Nat :=
  Nat.xor (Nat.xor (rotr32 x 2) (rotr32 x 13)) (rotr32 x 22)

/-- SHA-256 big sigma 1. -/
def sha2BSig1 (x : Nat) : Nat :=
  Nat.xor (Nat.xor (rotr32 x 6) (rotr32 x 11)) (rotr32 x 25)

/-- SHA-256 small sigma 0. -/
def sha2SSig0 (x : Nat) : Nat :=
  Nat.xor (Nat.xor (rotr32 x 7) (rotr32 x 18)) (Nat.shiftRight x 3)

/-- SHA-256 small sigma 1. -/
def sha2SSig1 (x : Nat) : Nat :=
  Nat.xor (Nat.xor (rotr32 x 17) (rotr32 x 19)) (Nat.shiftRight x 10)

/-- SHA-256 round constants. -/
def sha2K : List Nat :=
  [1116352408, 1899447441, 3049323471, 3921009573, 961987163, 1508970993,
   2453635748, 2870763221, 3624381080, 310598401, 607225278, 1426881987,
   1925078388, 2162078206, 2614888103, 3248222580, 3835390401, 4022224774,
   264347078, 604807628, 770255983, 1249150122, 1555081692, 1996064986,
   2554220882, 2821834349, 2952996808, 3210313671, 3336571891, 3584528711,
   113926993, 338241895, 666307205, 773529912, 1294757372, 1396182291,
   1695183700, 1986661051, 2177026350, 2456956037, 2730485921, 2820302411,
   3259730800, 3345764771, 3516065817, 3600352804, 4094571909, 275423344,
   430227734, 506948616, 659060556, 883997877, 958139571, 1322822218,
   1537002063, 1747873779, 1955562222, 2024104815, 2227730452, 2361852424,
   2428436474, 2756734187, 3204031479, 3329325298]

/-- Working state of the SHA-256 compression function. -/
structure Sha2State where
  a : Nat
  b : Nat
  c : Nat
  d : Nat
  e : Nat
  f : Nat
  g : Nat
  h : Nat

/-- Initial SHA-256 hash state. -/
def sha2Init : Sha2State :=
  ⟨1779033703, 3144134277, 1013904242, 2773480762,
   1359893119, 2600822924, 528734635, 1541459225⟩

/-- One SHA-256 round. -/
def sha2Round (st : Sha2State) (k w : Nat) : Sha2State :=
  let t1 := w32 (st.h + sha2BSig1 st.e + sha2Ch st.e st.f st.g + k + w)
  let t2 := w32 (sha2BSig0 st.a + sha2Maj st.a st.b st.c)
  ⟨w32 (t1 + t2), st.a, st.b, st.c, w32 (st.d + t1), st.e, st.f, st.g⟩

/-- Big-endian 32-bit words of a byte sequence. -/
def bytesToWords : List Nat → List Nat
  | b0 :: b1 :: b2 :: b3 :: rest =>
      (((b0 * 256 + b1) * 256 + b2) * 256 + b3) :: bytesToWords rest
  | _ => []

/-- The 64-entry SHA-256 message schedule extended from 16 block words. -/
def sha2Schedule (ws : List Nat) : List Nat :=
  let arr := (List.range 48).foldl
    (fun arr i =>
      let t := i + 16
      arr.push (w32 (sha2SSig1 (arr.getD (t - 2) 0) + arr.getD (t - 7) 0 +
        sha2SSig0 (arr.getD (t - 15) 0) + arr.getD (t - 16) 0)))
    ws.toArray
  arr.toList

/-- SHA-256 compression of one 64-byte block into the running state. -/
def sha2Block (hs : Sha2State) (block : List Nat) : Sha2State :=
  let ws := sha2Schedule (bytesToWords block)
  let fin := (sha2K.zip ws).foldl (fun st p => sha2Round st p.1 p.2) hs
  ⟨w32 (hs.a + fin.a), w32 (hs.b + fin.b), w32 (hs.c + fin.c), w32 (hs.d + fin.d),
   w32 (hs.e + fin.e), w32 (hs.f + fin.f), w32 (hs.g + fin.g), w32 (hs.h + fin.h)⟩

/-- Split a byte sequence into 64-byte blocks, structurally recursive on a
fuel bound (the length suffices, since every block consumes at least one
byte). -/
def blocks64Fuel : Nat → List Nat → List (List Nat)
  | 0, _ => []
  | _, [] => []
  | fuel + 1, x :: xs => ((x :: xs).take 64) :: blocks64Fuel fuel ((x :: xs).drop 64)

/-- Split a byte sequence into 64-byte blocks. -/
def blocks64 (l : List Nat) : List (List Nat) := blocks64Fuel l.length l

/-- SHA-256 digest (32 bytes) of a byte sequence. -/
def sha256 (msg : List Nat) : List Nat :=
  let padded := msg ++ [128] ++
    List.replicate ((120 - ((msg.length + 1) % 64)) % 64) 0 ++
    toBytesBE 8 (8 * msg.length)
  let fin := (blocks64 padded).foldl sha2Block sha2Init
  [fin.a, fin.b, fin.c, fin.d, fin.e, fin.f, fin.g, fin.h].flatMap (toBytesBE 4)

/-! ## Random source (model of crypto.randomBytes / crypto.randomUUID) -/

/-- Model of the process random source: an infinite byte stream consumed at
an explicit position, threaded through every call that draws randomness. -/
structure Rng where
  stream : Nat → Nat
  pos : Nat

/-- Model of crypto.randomBytes: the next n bytes of the stream. -/
def randomBytes (n : Nat) (r : Rng) : List Nat × Rng :=
  ((List.range n).map fun i => r.stream (r.pos + i) % 256,
   { stream := r.stream, pos := r.pos + n })

/-- Model of crypto.randomUUID: an identifier derived from 16 fresh random
bytes (dash formatting elided; only freshness and opacity matter here). -/
def randomUUID (r : Rng) : String × Rng :=
  let br := randomBytes 16 r
  (hexEncode br.1, br.2)

/-! ## Cipher model

The source calls the external Node crypto library (crypto.createCipher with
aes-256-gcm).  That library is a collaborator, not repository code; it is
modelled here by an executable authenticated stream cipher built from the
SHA-256 primitive above: the keystream and the authentication tag are
digests of the key, the associated data and the message.  No claim settled
in this file depends on the internals of this stand-in, only on its shape:
ciphertext plus tag out, plaintext back exactly when key, associated data
and tag all match.  The source's createCipher usage derives its own
initialisation vector from the key, ignoring the separately generated iv
field; the model mirrors that by not consuming the iv. -/

/-- Keystream bytes derived from key and associated data. -/
def keystream (key : List Nat) (aad : String) (n : Nat) : List Nat :=
  ((List.range ((n + 31) / 32)).flatMap fun i =>
    sha256 (key ++ utf8Bytes aad ++ toBytesBE 8 i)).take n

/-- Authenticated encryption: ciphertext and 32-byte authentication tag. -/
def aesGcmSeal (key : List Nat) (aad : String) (data : List Nat) :
    List Nat × List Nat :=
  let ct := (data.zip (keystream key aad data.length)).map fun p => Nat.xor p.1 p.2
  (ct, sha256 (key ++ utf8Bytes aad ++ ct))

/-- Authenticated decryption: the plaintext when the tag verifies, else none. -/
def aesGcmOpen (key : List Nat) (aad : String) (ct tag : List Nat) :
    Option (List Nat) :=
  if tag = sha256 (key ++ utf8Bytes aad ++ ct) then
    some ((ct.zip (keystream key aad ct.length)).map fun p => Nat.xor p.1 p.2)
  else none

/-! ## EncryptionService (src/lib/encryption.ts) -/

/-- Result of an encrypt operation: ciphertext, iv, tag and key reference,
all as encoded strings, as in the source interface EncryptionResult. -/
structure EncryptionResult where
  encrypted : String
  iv : String
  tag : String
  keyId : String
deriving DecidableEq

/-- Result of a decrypt operation, as in the source interface
DecryptionResult. -/
structure DecryptionResult where
  decrypted : String
  success : Bool
deriving DecidableEq

/-- The encryption service: its only state is the master key string. -/
structure EncryptionService where
  masterKey : String
deriving DecidableEq

namespace EncryptionService

/-- generateMasterKey: 32 random bytes rendered as hex. -/
def generateMasterKey (r : Rng) : String × Rng :=
  let br := randomBytes 32 r
  (hexEncode br.1, br.2)

/-- The constructor: the master key is taken from the environment variable
MASTER_ENCRYPTION_KEY when that is set and non-empty (the source uses the
JavaScript or-else operator, for which the empty string is falsy), and
otherwise silently falls back to a freshly generated key.  The environment
is modelled as an optional string.  Construction is total: there is no
failure path. -/
def construct (envMasterKey : Option String) (r : Rng) : EncryptionService × Rng :=
  match envMasterKey with
  | some k =>
      if k = "" then
        let g := generateMasterKey r
        ({ masterKey := g.1 }, g.2)
      else ({ masterKey := k }, r)
  | none =>
      let g := generateMasterKey r
      ({ masterKey := g.1 }, g.2)

/-- generateDataKey: a fresh 32-byte data key. -/
def generateDataKey (r : Rng) : List Nat × Rng := randomBytes 32 r

/-- encryptWithKey: fresh iv, cipher over the utf8 data with the fixed
domain tag meeting-maestro as associated data, hex ciphertext, fresh
random key identifier. -/
def encryptWithKey (data : String) (key : List Nat) (r : Rng) :
    EncryptionResult × Rng :=
  let ivr := randomBytes 16 r
  let sealed := aesGcmSeal key "meeting-maestro" (utf8Bytes data)
  let kid := randomUUID ivr.2
  ({ encrypted := hexEncode sealed.1, iv := hexEncode ivr.1,
     tag := hexEncode sealed.2, keyId := kid.1 }, kid.2)

/-- decryptWithKey: authenticated decryption with the meeting-maestro
domain tag; on any cipher failure returns empty plaintext and success
false, as the source catch branch does.  The decoded plaintext bytes are
rendered back through hex here, standing in for the utf8 re-decoding. -/
def decryptWithKey (encryptedData : EncryptionResult) (key : List Nat) :
    DecryptionResult :=
  match aesGcmOpen key "meeting-maestro" (hexDecode encryptedData.encrypted)
      (hexDecode encryptedData.tag) with
  | some bs => { decrypted := hexEncode bs, success := true }
  | none => { decrypted := "", success := false }

/-- encryptKey: wrap a data key under the master key with the organization
identifier as associated data; ciphertext and tag concatenated and
base64-encoded, as in the source. -/
def encryptKey (svc : EncryptionService) (dataKey : List Nat)
    (organizationId : String) : String :=
  let sealed := aesGcmSeal (utf8Bytes svc.masterKey) organizationId dataKey
  base64Encode (sealed.1 ++ sealed.2)

/-- storeEncryptedKey: the source only logs to the console and persists
nothing; the model records that nothing is stored by returning the unit. -/
def storeEncryptedKey (encryptedKey organizationId : String) : Unit := ()

/-- retrieveAndDecryptKey: the source is stubbed to always return null
(key not found), whatever the key identifier and organization. -/
def retrieveAndDecryptKey (svc : EncryptionService)
    (keyId organizationId : String) : Option (List Nat) := none

/-- encryptData: generate a fresh data key, wrap it for the organization
(the wrapped key is then passed to the no-op store), and encrypt the data
with the fresh key. -/
def encryptData (svc : EncryptionService) (data organizationId : String)
    (r : Rng) : EncryptionResult × Rng :=
  let keyr := generateDataKey r
  let encryptedKey := encryptKey svc keyr.1 organizationId
  let _stored := storeEncryptedKey encryptedKey organizationId
  encryptWithKey data keyr.1 keyr.2

/-- decryptData: retrieve the referenced data key for the organization;
when that fails (which in the source it always does), return empty
plaintext with success false. -/
def decryptData (svc : EncryptionService) (encryptedData : EncryptionResult)
    (organizationId : String) : DecryptionResult :=
  match retrieveAndDecryptKey svc encryptedData.keyId organizationId with
  | none => { decrypted := "", success := false }
  | some dataKey => decryptWithKey encryptedData dataKey

/-- encryptFile: same as encryptData but over a raw byte buffer, with the
meeting-maestro-file domain tag and base64 ciphertext. -/
def encryptFile (svc : EncryptionService) (fileBuffer : List Nat)
    (organizationId : String) (r : Rng) : EncryptionResult × Rng :=
  let keyr := generateDataKey r
  let encryptedKey := encryptKey svc keyr.1 organizationId
  let _stored := storeEncryptedKey encryptedKey organizationId
  let ivr := randomBytes 16 keyr.2
  let sealed := aesGcmSeal keyr.1 "meeting-maestro-file" fileBuffer
  let kid := randomUUID ivr.2
  ({ encrypted := base64Encode sealed.1, iv := hexEncode ivr.1,
     tag := hexEncode sealed.2, keyId := kid.1 }, kid.2)

/-- decryptFile: retrieve the referenced data key; when that fails (always,
in the source) return null, and likewise on any cipher failure. -/
def decryptFile (svc : EncryptionService) (encryptedData : EncryptionResult)
    (organizationId : String) : Option (List Nat) :=
  match retrieveAndDecryptKey svc encryptedData.keyId organizationId with
  | none => none
  | some dataKey =>
      aesGcmOpen dataKey "meeting-maestro-file"
        (base64Decode encryptedData.encrypted) (hexDecode encryptedData.tag)

/-- hashData: SHA-256 hex digest of the input bytes. -/
def hashData (data : List Nat) : String := hexEncode (sha256 data)

/-- Model of crypto.timingSafeEqual: throws a RangeError when the buffers
differ in length, otherwise compares them (the constant-time aspect is a
timing property outside the embedding; the value behaviour is total
byte-for-byte comparison). -/
def timingSafeEqual (a b : List Nat) : Except String Bool :=
  if a.length = b.length then Except.ok (decide (a = b))
  else Except.error "Input buffers must have the same byte length"

/-- verifyIntegrity: recompute the digest of the data and compare with the
hex-decoded candidate digest via timingSafeEqual.  A length mismatch of
the decoded buffers propagates as the thrown RangeError. -/
def verifyIntegrity (data : List Nat) (hash : String) : Except String Bool :=
  let computedHash := hashData data
  timingSafeEqual (hexDecode computedHash) (hexDecode hash)

end EncryptionService

/-! ## AccessControlService (src/lib/access-control.ts) -/

/-- The closed permission enumeration of the source. -/
inductive Permission where
  | read
  | write
  | del
  | admin
deriving DecidableEq

/-- The closed resource-type enumeration of the source.  The source member
named action is rendered act here to keep Lean keywords clear. -/
inductive ResourceType where
  | meeting
  | act
  | company
  | user
  | analytics
  | file
deriving DecidableEq

/-- Result of a permission check, as in the source interface
PermissionCheck. -/
structure PermissionCheck where
  hasPermission : Bool
  reason : Option String
  requiredPermission : Option Permission
  userPermission : Option Permission
deriving DecidableEq

namespace AccessControlService

/-- getUserRole: the source is stubbed — it ignores both identifiers, never
consults any membership store, and always answers the role user. -/
def getUserRole (userId organizationId : String) : String := "user"

/-- The role-to-permissions matrix literal of evaluatePermission, looked up
by role string; unknown roles yield the empty permission list. -/
def rolePermissions (userRole : String) (resourceType : ResourceType) :
    List Permission :=
  if userRole = "owner" then
    [Permission.read, Permission.write, Permission.del, Permission.admin]
  else if userRole = "admin" then
    match resourceType with
    | ResourceType.user => [Permission.read, Permission.write]
    | _ => [Permission.read, Permission.write, Permission.del]
  else if userRole = "user" then
    match resourceType with
    | ResourceType.meeting => [Permission.read, Permission.write]
    | ResourceType.act => [Permission.read, Permission.write]
    | ResourceType.company => [Permission.read]
    | ResourceType.user => [Permission.read]
    | ResourceType.analytics => [Permission.read]
    | ResourceType.file => [Permission.read, Permission.write]
  else []

/-- evaluatePermission: membership of the required permission in the
matrix row selected by the role string. -/
def evaluatePermission (userRole : String) (resourceType : ResourceType)
    (requiredPermission : Permission) : Bool :=
  (rolePermissions userRole resourceType).contains requiredPermission

/-- checkPermission: look up the role (stubbed to user), evaluate the
matrix, and package the result as the source does. -/
def checkPermission (userId organizationId : String)
    (resourceType : ResourceType) (requiredPermission : Permission) :
    PermissionCheck :=
  let userRole := getUserRole userId organizationId
  let hasPermission := evaluatePermission userRole resourceType requiredPermission
  { hasPermission := hasPermission,
    requiredPermission := some requiredPermission,
    userPermission := if hasPermission then some requiredPermission else none,
    reason := if hasPermission then none else some "Insufficient permissions" }

end AccessControlService

/-- The permission matrix exactly as tabulated in the specification, stated
independently of the source so the two can be compared.  Modelled from the
spec: the table of section 4.4 (role times resource type to permitted
actions). -/
def specMatrix (role : String) (resourceType : ResourceType) :
    List Permission :=
  if role = "owner" then
    [Permission.read, Permission.write, Permission.del, Permission.admin]
  else if role = "admin" then
    match resourceType with
    | ResourceType.user => [Permission.read, Permission.write]
    | _ => [Permission.read, Permission.write, Permission.del]
  else if role = "user" then
    match resourceType with
    | ResourceType.meeting => [Permission.read, Permission.write]
    | ResourceType.act => [Permission.read, Permission.write]
    | ResourceType.company => [Permission.read]
    | ResourceType.user => [Permission.read]
    | ResourceType.analytics => [Permission.read]
    | ResourceType.file => [Permission.read, Permission.write]
  else []

/-! ## DataRetentionService (src/lib/data-retention.ts) -/

/-- A retention policy row, as in the source interface RetentionPolicy. -/
structure RetentionPolicy where
  resourceType : String
  retentionDays : Nat
  autoDelete : Bool
  encryptionRequired : Bool
  backupRequired : Bool
deriving DecidableEq

namespace DataRetentionService

/-- getMaxRetentionDays: the source holds the compliance-mode ceiling table
(standard 365, gdpr, hipaa and sox 2555) but ignores the organization and
always looks up the standard entry. -/
def getMaxRetentionDays (organizationId : String) : Nat :=
  let complianceModes : List (String × Nat) :=
    [("standard", 365), ("gdpr", 2555), ("hipaa", 2555), ("sox", 2555)]
  ((complianceModes.find? fun p => p.1 = "standard").map fun p => p.2).getD 0

/-- setRetentionPolicy: validates the requested period against the ceiling
and throws when it exceeds it; otherwise succeeds (persistence is stubbed
in the source, so success carries no state). -/
def setRetentionPolicy (organizationId resourceType : String)
    (retentionDays : Nat) : Except String Unit :=
  let maxDays := getMaxRetentionDays organizationId
  if retentionDays > maxDays then
    Except.error ("Retention period cannot exceed " ++ toString maxDays ++ " days")
  else Except.ok ()

/-- getRetentionPolicy: the hardcoded default policy table of the source,
keyed by resource type; null when no default exists. -/
def getRetentionPolicy (organizationId resourceType : String) :
    Option RetentionPolicy :=
  if resourceType = "meeting" then
    some { resourceType := "meeting", retentionDays := 90, autoDelete := true,
           encryptionRequired := true, backupRequired := false }
  else if resourceType = "action" then
    some { resourceType := "action", retentionDays := 180, autoDelete := true,
           encryptionRequired := true, backupRequired := true }
  else if resourceType = "analytics" then
    some { resourceType := "analytics", retentionDays := 365, autoDelete := false,
           encryptionRequired := false, backupRequired := true }
  else if resourceType = "audit_log" then
    some { resourceType := "audit_log", retentionDays := 2555, autoDelete := false,
           encryptionRequired := true, backupRequired := true }
  else none

/-- JavaScript or-else over an optional number: an absent or zero value is
falsy and yields the fallback. -/
def jsOrNat (a : Option Nat) (b : Nat) : Nat :=
  match a with
  | some d => if d = 0 then b else d
  | none => b

/-- The retention days scheduleDataDeletion settles on: the explicit
argument when truthy, else the policy default when present and truthy,
else 90, mirroring the or-else chain of the source. -/
def scheduleDataDeletionDays (organizationId resourceType : String)
    (retentionDays : Option Nat) : Nat :=
  jsOrNat retentionDays
    (jsOrNat ((getRetentionPolicy organizationId resourceType).map
      fun policy => policy.retentionDays) 90)

end DataRetentionService

/-! ## UserDataManagementService (src/lib/user-data-management.ts)

The service orchestrates the stubbed collaborators.  Every call that in a
real deployment would touch persisted state (deletions, deletion
scheduling, audit writes) is recorded in an effect trace, and each
operation returns its result together with the trace of such calls it
made, so that the no-mutation-on-failure claims are statements about the
trace. -/

/-- A JSON-like value, used for the fixture payloads the stubbed
collectors return. -/
inductive JsonValue where
  | str (s : String)
  | num (n : Nat)
  | boolean (b : Bool)
  | null
  | arr (xs : List JsonValue)
  | obj (fields : List (String × JsonValue))

/-- Status of a GDPR deletion request. -/
inductive RequestStatus where
  | pending
  | approved
  | rejected
  | completed
deriving DecidableEq

/-- A GDPR deletion request, as in the source interface
DataDeletionRequest. -/
structure DataDeletionRequest where
  userId : String
  organizationId : String
  reason : String
  confirmationCode : String
  requestedBy : String
  requestedAt : String
  status : RequestStatus
deriving DecidableEq

/-- A state-affecting call made by the user-data service: the persisted
mutations and audit writes the claims quantify over. -/
inductive Effect where
  | deletePersonalData (userId organizationId : String)
  | deleteOrganizationData (userId organizationId : String)
  | scheduleDataDeletion (organizationId resourceType resourceId : String)
      (retentionDays : Nat)
  | auditLogDataAccess (userId organizationId resourceType action : String)
deriving DecidableEq

/-- A user data export, as in the source interface UserDataExport. -/
structure UserDataExport where
  userId : String
  organizationId : String
  personalData : JsonValue
  organizationData : JsonValue
  auditTrail : List JsonValue
  exportDate : String
  format : String

namespace UserDataManagementService

/-- collectPersonalData: the source returns a hardcoded fixture built
around the user identifier (profile, preferences, one session). -/
def collectPersonalData (userId organizationId : String) (now : String) :
    JsonValue :=
  JsonValue.obj
    [("profile", JsonValue.obj
        [("id", JsonValue.str userId),
         ("email", JsonValue.str "user@example.com"),
         ("name", JsonValue.str "User Name"),
         ("avatar", JsonValue.null),
         ("preferences", JsonValue.obj [])]),
     ("preferences", JsonValue.obj
        [("theme", JsonValue.str "light"),
         ("notifications", JsonValue.boolean true),
         ("language", JsonValue.str "en")]),
     ("sessions", JsonValue.arr
        [JsonValue.obj
          [("id", JsonValue.str "session-1"),
           ("createdAt", JsonValue.str now),
           ("lastActivity", JsonValue.str now),
           ("ipAddress", JsonValue.str "192.168.1.1"),
           ("userAgent", JsonValue.str "Mozilla/5.0...")]])]

/-- collectOrganizationData: hardcoded empty collections. -/
def collectOrganizationData (userId organizationId : String) : JsonValue :=
  JsonValue.obj
    [("meetings", JsonValue.arr []), ("actions", JsonValue.arr []),
     ("analytics", JsonValue.arr []), ("files", JsonValue.arr [])]

/-- collectAuditTrail: stubbed to the empty list. -/
def collectAuditTrail (userId organizationId : String) : List JsonValue := []

/-- exportUserData: check read permission on the user resource, gather the
three data groups, stamp the export date, log the export, return the
export.  The permission gate is the only failure path; there is no rate
limiting in this function. -/
def exportUserData (userId organizationId format : String) (now : String) :
    Except String UserDataExport × List Effect :=
  let hasPermission := AccessControlService.checkPermission userId
    organizationId ResourceType.user Permission.read
  if hasPermission.hasPermission = false then
    (Except.error "Insufficient permissions to export data", [])
  else
    let exportData : UserDataExport :=
      { userId := userId, organizationId := organizationId,
        personalData := collectPersonalData userId organizationId now,
        organizationData := collectOrganizationData userId organizationId,
        auditTrail := collectAuditTrail userId organizationId,
        exportDate := now, format := format }
    (Except.ok exportData,
     [Effect.auditLogDataAccess userId organizationId "user_data" "export"])

/-- executeDataDeletion: reject on a confirmation-code mismatch, then on a
non-pending status; only past both gates delete personal data, delete
organization data, schedule the audit-trail deletion at the 2555-day
compliance retention, and log the deletion.  The effect trace records the
state-affecting calls in order. -/
def executeDataDeletion (deletionRequest : DataDeletionRequest)
    (confirmationCode : String) : Except String Bool × List Effect :=
  if deletionRequest.confirmationCode ≠ confirmationCode then
    (Except.error "Invalid confirmation code", [])
  else if deletionRequest.status ≠ RequestStatus.pending then
    (Except.error "Deletion request is not pending", [])
  else
    (Except.ok true,
     [Effect.deletePersonalData deletionRequest.userId deletionRequest.organizationId,
      Effect.deleteOrganizationData deletionRequest.userId deletionRequest.organizationId,
      Effect.scheduleDataDeletion deletionRequest.organizationId "audit_log"
        deletionRequest.userId 2555,
      Effect.auditLogDataAccess deletionRequest.requestedBy
        deletionRequest.organizationId "user_data" "deleted"])

/-- checkUserExists: stubbed to true. -/
def checkUserExists (userId organizationId : String) : Bool := true

/-- getRecentExports: stubbed to the empty list; the model keeps the
intended element type, a list of prior export timestamps in epoch
milliseconds. -/
def getRecentExports (userId organizationId : String) : List Nat := []

/-- Result of validateDataExportRequest. -/
structure ValidationResult where
  valid : Bool
  reason : Option String
deriving DecidableEq

/-- validateDataExportRequest: user existence (stubbed true), supported
format, then the rate-limit branch over getRecentExports — dead in the
source because the stub returns no exports.  Time is the current epoch
milliseconds, passed explicitly. -/
def validateDataExportRequest (userId organizationId format : String)
    (nowMillis : Nat) : ValidationResult :=
  if checkUserExists userId organizationId = false then
    { valid := false, reason := some "User not found or inactive" }
  else if (["json", "csv", "pdf"].contains format) = false then
    { valid := false, reason := some "Unsupported export format" }
  else
    match getRecentExports userId organizationId with
    | [] => { valid := true, reason := none }
    | lastExport :: _ =>
        if (nowMillis - lastExport) / 3600000 < 24 then
          { valid := false,
            reason := some "Export rate limit exceeded. Please wait 24 hours." }
        else { valid := true, reason := none }

end UserDataManagementService

/-! ## Theorems settling the specification claims -/

set_option maxRecDepth 10000

/-- C1: the claim says decryptData(encryptData(P, O), O) succeeds and
returns P for every plaintext P and organization O.  The code fails it:
because key retrieval is stubbed to null, the composition always returns
empty plaintext with success false, for every plaintext, organization,
master key and random stream. -/
theorem decryptData_encryptData_always_fails (svc : EncryptionService)
    (data organizationId : String) (r : Rng) :
    EncryptionService.decryptData svc
      (EncryptionService.encryptData svc data organizationId r).1
      organizationId = { decrypted := "", success := false } := rfl

/-- C2: the claim says checkPermission fails closed (not allowed) for a
user who is not a member of the organization.  The code has no membership
state at all: the result of checkPermission is the same for every pair of
user and organization identifiers, and in particular it allows read on
meeting to everyone — so any non-member is allowed, contradicting the
claim. -/
theorem checkPermission_ignores_membership
    (userId1 organizationId1 userId2 organizationId2 : String)
    (resourceType : ResourceType) (permission : Permission) :
    AccessControlService.checkPermission userId1 organizationId1
      resourceType permission =
      AccessControlService.checkPermission userId2 organizationId2
        resourceType permission ∧
    (AccessControlService.checkPermission userId1 organizationId1
      ResourceType.meeting Permission.read).hasPermission = true :=
  ⟨rfl, rfl⟩

/-- C3: the claim says a user holding a role gets from checkPermission
exactly the section 4.4 matrix cell for that role.  The matrix literal in
evaluatePermission does agree exactly with the specification table (third
conjunct), but checkPermission never consults the holder's actual role:
getUserRole is stubbed to the role user, so for example a holder of the
owner role is denied admin on meeting (first conjunct) although the table
grants it (second conjunct). -/
theorem checkPermission_ignores_role (userId organizationId : String) :
    (AccessControlService.checkPermission userId organizationId
      ResourceType.meeting Permission.admin).hasPermission = false ∧
    (specMatrix "owner" ResourceType.meeting).contains Permission.admin = true ∧
    ∀ role resourceType permission,
      AccessControlService.evaluatePermission role resourceType permission =
        (specMatrix role resourceType).contains permission :=
  ⟨rfl, rfl, fun _ _ _ => rfl⟩

/-- C4: for distinct organizations, decrypting an envelope produced for the
first organization with the second fails — decryptData returns success
false with empty output and decryptFile returns null — and never yields
plaintext or degraded output.  This holds in the code (decryption fails
for every envelope, the cross-tenant case included). -/
theorem crossTenant_decrypt_fails (svc : EncryptionService) (data : String)
    (fileBuffer : List Nat) (org1 org2 : String) (r1 r2 : Rng)
    (hne : org1 ≠ org2) :
    EncryptionService.decryptData svc
      (EncryptionService.encryptData svc data org1 r1).1 org2 =
      { decrypted := "", success := false } ∧
    EncryptionService.decryptFile svc
      (EncryptionService.encryptFile svc fileBuffer org1 r2).1 org2 = none :=
  ⟨rfl, rfl⟩

/-- C4 witness: the theorem applied at concrete distinct organizations. -/
theorem crossTenant_decrypt_fails_witness :
    EncryptionService.decryptData ⟨"master"⟩
      (EncryptionService.encryptData ⟨"master"⟩ "secret" "org-a"
        ⟨fun n => n, 0⟩).1 "org-b" = { decrypted := "", success := false } ∧
    EncryptionService.decryptFile ⟨"master"⟩
      (EncryptionService.encryptFile ⟨"master"⟩ [1, 2, 3] "org-a"
        ⟨fun n => n, 0⟩).1 "org-b" = none :=
  crossTenant_decrypt_fails ⟨"master"⟩ "secret" [1, 2, 3] "org-a" "org-b"
    ⟨fun n => n, 0⟩ ⟨fun n => n, 0⟩ (by decide)

/-- C5: the claim says a missing master key must be a fatal startup error.
The constructor is total — it has no failure path — and with the
environment variable absent (or empty, which the or-else operator treats
the same) it silently falls back to a freshly generated random master
key. -/
theorem construct_silent_fallback (r : Rng) :
    (EncryptionService.construct none r).1 =
      { masterKey := (EncryptionService.generateMasterKey r).1 } ∧
    (EncryptionService.construct (some "") r).1 =
      { masterKey := (EncryptionService.generateMasterKey r).1 } :=
  ⟨rfl, rfl⟩

/-- C6: executeDataDeletion with a mismatched confirmation code, or on a
request whose status is not pending, returns an error and performs none of
the state-affecting calls (no personal-data deletion, no organization-data
deletion, no audit-trail deletion scheduling, no audit write): its effect
trace is empty. -/
theorem executeDataDeletion_fail_no_mutation
    (deletionRequest : DataDeletionRequest) (confirmationCode : String)
    (hfail : deletionRequest.confirmationCode ≠ confirmationCode ∨
      deletionRequest.status ≠ RequestStatus.pending) :
    (∃ msg, (UserDataManagementService.executeDataDeletion deletionRequest
      confirmationCode).1 = Except.error msg) ∧
    (UserDataManagementService.executeDataDeletion deletionRequest
      confirmationCode).2 = [] := by
  unfold UserDataManagementService.executeDataDeletion
  by_cases hc : deletionRequest.confirmationCode ≠ confirmationCode
  · rw [if_pos hc]
    exact ⟨⟨"Invalid confirmation code", rfl⟩, rfl⟩
  · have hs : deletionRequest.status ≠ RequestStatus.pending := by
      rcases hfail with h | h
      · exact absurd h hc
      · exact h
    rw [if_neg hc, if_pos hs]
    exact ⟨⟨"Deletion request is not pending", rfl⟩, rfl⟩

/-- C6 witness: the theorem applied to a concrete pending request and a
wrong confirmation code. -/
theorem executeDataDeletion_fail_no_mutation_witness :
    (∃ msg, (UserDataManagementService.executeDataDeletion
      ⟨"user-1", "org-1", "gdpr request", "code123", "admin-1",
        "2024-01-01T00:00:00Z", RequestStatus.pending⟩ "wrong-code").1 =
      Except.error msg) ∧
    (UserDataManagementService.executeDataDeletion
      ⟨"user-1", "org-1", "gdpr request", "code123", "admin-1",
        "2024-01-01T00:00:00Z", RequestStatus.pending⟩ "wrong-code").2 = [] :=
  executeDataDeletion_fail_no_mutation
    ⟨"user-1", "org-1", "gdpr request", "code123", "admin-1",
      "2024-01-01T00:00:00Z", RequestStatus.pending⟩ "wrong-code"
    (Or.inl (by decide))

/-- C7: the claim says a second export within 24 hours fails with a
rate-limit error.  The code never rate-limits: validateDataExportRequest
always answers valid for a supported format, whatever the current time,
because the stubbed getRecentExports returns no prior exports; and
exportUserData itself succeeds unconditionally (its only gate, the read
permission on the user resource, always passes).  So a second export at
any time after a first one succeeds instead of failing. -/
theorem exportUserData_not_rate_limited (userId organizationId : String)
    (nowMillis : Nat) (now : String) :
    UserDataManagementService.validateDataExportRequest userId
      organizationId "json" nowMillis = { valid := true, reason := none } ∧
    (UserDataManagementService.exportUserData userId organizationId "json"
      now).1 =
      Except.ok
        { userId := userId, organizationId := organizationId,
          personalData := UserDataManagementService.collectPersonalData
            userId organizationId now,
          organizationData := UserDataManagementService.collectOrganizationData
            userId organizationId,
          auditTrail := UserDataManagementService.collectAuditTrail
            userId organizationId,
          exportDate := now, format := "json" } :=
  ⟨rfl, rfl⟩

/-- C8: the claim says setRetentionPolicy enforces the organization's own
compliance-mode ceiling (standard 365, gdpr, hipaa and sox 2555).  The code
applies the standard ceiling of 365 days to every organization: the
compliance-mode table is present but the lookup is hardcoded to standard,
so an organization in gdpr, hipaa or sox mode is wrongly refused any
period between 366 and 2555 days. -/
theorem setRetentionPolicy_standard_ceiling_only
    (organizationId resourceType : String) (retentionDays : Nat) :
    DataRetentionService.getMaxRetentionDays organizationId = 365 ∧
    (DataRetentionService.setRetentionPolicy organizationId resourceType
      retentionDays = Except.ok () ↔ retentionDays ≤ 365) := by
  refine ⟨rfl, ?_⟩
  have h365 : DataRetentionService.getMaxRetentionDays organizationId = 365 := rfl
  simp only [DataRetentionService.setRetentionPolicy, h365]
  by_cases h : retentionDays > 365
  · rw [if_pos h]
    constructor
    · intro hcontra
      exact absurd hcontra (by simp)
    · intro hle
      omega
  · rw [if_neg h]
    constructor
    · intro _
      omega
    · intro _
      rfl

/-- Helper: timingSafeEqual answers ok true exactly on equal byte
sequences (a length mismatch is an error, not a boolean). -/
theorem timingSafeEqual_ok_true_iff (a b : List Nat) :
    EncryptionService.timingSafeEqual a b = Except.ok true ↔ a = b := by
  unfold EncryptionService.timingSafeEqual
  by_cases h : a.length = b.length
  · rw [if_pos h]
    constructor
    · intro hok
      have hd : decide (a = b) = true := by
        injection hok
      exact of_decide_eq_true hd
    · intro hab
      subst hab
      simp
  · rw [if_neg h]
    constructor
    · intro hcontra
      exact absurd hcontra (by simp)
    · intro hab
      subst hab
      exact absurd rfl h

/-- C9 counterexample: verifyIntegrity does not, for every candidate
digest, return a boolean that is true only when the candidate is
bit-identical to hashData of the input.  At digest candidate the empty
string it throws a RangeError instead of returning a boolean; and at the
uppercase rendering of the true digest it returns true although that
string is not bit-identical to the lowercase string hashData produces. -/
theorem verifyIntegrity_counterexample :
    EncryptionService.verifyIntegrity [] "" =
      Except.error "Input buffers must have the same byte length" ∧
    EncryptionService.verifyIntegrity []
      "E3B0C44298FC1C149AFBF4C8996FB92427AE41E4649B934CA495991B7852B855" =
      Except.ok true ∧
    "E3B0C44298FC1C149AFBF4C8996FB92427AE41E4649B934CA495991B7852B855" ≠
      EncryptionService.hashData [] :=
  ⟨rfl, rfl, by decide⟩

/-- C9 as amended: verifyIntegrity(b, hashData(b)) is true for every byte
sequence b; and verifyIntegrity(b, d) returns boolean true exactly when d
hex-decodes to the same digest bytes as hashData(b) (so hex case does not
matter), a decoded length mismatch surfacing as a thrown RangeError rather
than a boolean. -/
theorem verifyIntegrity_matches_decoded_digest (data : List Nat)
    (hash : String) :
    EncryptionService.verifyIntegrity data (EncryptionService.hashData data) =
      Except.ok true ∧
    (EncryptionService.verifyIntegrity data hash = Except.ok true ↔
      hexDecode hash = hexDecode (EncryptionService.hashData data)) := by
  constructor
  · exact (timingSafeEqual_ok_true_iff
      (hexDecode (EncryptionService.hashData data))
      (hexDecode (EncryptionService.hashData data))).mpr rfl
  · have h2 := timingSafeEqual_ok_true_iff
      (hexDecode (EncryptionService.hashData data)) (hexDecode hash)
    exact h2.trans eq_comm

/-- C10: every decryption through the public operations fails, because
retrieveAndDecryptKey unconditionally returns null: decryptData returns
empty plaintext with success false and decryptFile returns null, for every
envelope and organization. -/
theorem decrypt_always_fails (svc : EncryptionService)
    (encryptedData : EncryptionResult) (organizationId : String) :
    EncryptionService.decryptData svc encryptedData organizationId =
      { decrypted := "", success := false } ∧
    EncryptionService.decryptFile svc encryptedData organizationId = none :=
  ⟨rfl, rfl⟩
